import Mathlib

/-!
A shallow embedding of src/app.py: a Flask endpoint POST /process that checks a
bearer token, validates a JSON body, builds an extraction prompt from a fixed
instruction template plus the user text, submits it once to an external
completion service, and passes the reply back to the caller.

External effects are modelled explicitly: the environment variables read
at import time, the module-level date string computed once at import, the outcome
of constructing the service client, and the behaviour of one outbound
invocation are all fields of a World value fixed at process start.  Fallible
steps (JSON parsing, the outbound call) are Except values.  The handler is
instrumented to also return the list of prompts submitted to the completion
service, so that at-most-once and exactly-once properties can be stated.
-/

/-- Python truthiness of an optional string (an environment variable or a
header): None and the empty string are falsy, every other string is truthy. -/
def falsyStrOpt : Option String → Bool
  | none => true
  | some s => s == ""

/-- How a Python f-string renders an optional string: the value itself when
set, the literal text None when the value is None. -/
def pyStrOpt : Option String → String
  | none => "None"
  | some s => s

/-- Fixed model name, src/app.py line 16. -/
def DEFAULT_MODEL : String := "llama3-70b-8192"

/-- Fixed maximum output length, src/app.py line 18. -/
def DEFAULT_MAX_TOKENS : Nat := 1024

/-- One reply from the completion service: either an object carrying a content
attribute, or a bare value; src/app.py line 76 returns response.content when
the attribute exists and the response itself otherwise. -/
inductive LLMReply where
  | withContent (content : String)
  | bare (value : String)
deriving DecidableEq

/-- The value extracted from a reply at src/app.py line 76: the content
attribute when present, the response itself otherwise. -/
def LLMReply.contentOrSelf : LLMReply → String
  | .withContent c => c
  | .bare v => v

/-- A constructed completion-service client (ChatGroq): its fixed decoding
parameters and its invoke method, which either raises an exception carrying a
message or returns a reply. -/
structure LLM where
  model : String
  maxTokens : Nat
  invoke : String → Except String LLMReply

/-- Process-wide configuration and external behaviour, all fixed at process
start: the two environment variables read at import (src/app.py lines 14-15),
the module-level current_date string computed once at import (line 7), whether
the ChatGroq constructor succeeds (lines 31-41), and the behaviour of an
outbound invoke call (line 74). -/
structure World where
  API_SECRET_KEY : Option String
  GROQ_API_KEY : Option String
  current_date : String
  chatGroqConstructs : Bool
  invoke : String → Except String LLMReply

/-- One incoming POST /process request.  authHeader is the Authorization
header.  body is the outcome of request.get_json(): Except.error carries the
exception message when the body cannot be parsed as JSON, Except.ok carries
the parsed JSON object as an association list of string fields.  requestDate
is the calendar date at the moment the request is handled; the handler never
reads it (src/app.py reads the clock only once, at module import) and it is
present so that properties relating the prompt to the request-time date can be
stated. -/
structure RequestCtx where
  authHeader : Option String
  body : Except String (List (String × String))
  requestDate : String

/-- The function initialize_llm of src/app.py lines 26-41: None when
GROQ_API_KEY is missing or empty, None when the ChatGroq constructor raises
(the exception is swallowed), otherwise the client built with the fixed
decoding parameters. -/
def initialize_llm (w : World) : Option LLM :=
  if falsyStrOpt w.GROQ_API_KEY then none
  else if w.chatGroqConstructs then some ⟨DEFAULT_MODEL, DEFAULT_MAX_TOKENS, w.invoke⟩
  else none

/-- The fixed instruction text of src/app.py lines 51-62: twelve adjacent
string literals, concatenated by Python juxtaposition. -/
def schema_instruction : String :=
  "Your input is a transaction message extracted from voice. Extract structured details like Amount, "
  ++ "Transaction Type, Bank Name, Card Type, Paid To, Merchant, Transaction Mode, Transaction Date, Reference Number, and Tag."
  ++ "Transaction Type should be consistant either debit or credit"
  ++ "transaction date formate in dd/mm/yy"
  ++ "Tag meaning which category of spending: if Amazon, then Shopping; if Zomato, then Eating, etc."
  ++ "Just return the JSON output only. Don\x27t say anything else. If no output, return null."
  ++ "If mode of payment is not mentioned, assume cash by default."
  ++ "If any field is missing, set it as null."
  ++ "Return only a JSON or a list of JSON objects."
  ++ "Handle unstructured, grammatically incorrect, and short human input."
  ++ "Example: \x27today I spent 500 at Domino\x27s\x27 should be extracted correctly."
  ++ "If the user mentions multiple items with multiple prices, generate a list of JSON objects."

/-- The trailing f-string of src/app.py lines 63-67, with the module-level
current_date interpolated. -/
def date_section (current_date : String) : String :=
  "\n        Today\x27s date is " ++ current_date
  ++ ". You must use this date when interpreting time-related queries.\n        For example:\n        - If a user says \"this month,\" assume it is the current month.\n        "

/-- The system_prompt of src/app.py lines 50-68. -/
def system_prompt (current_date : String) : String :=
  schema_instruction ++ date_section current_date

/-- The input_prompt of src/app.py line 70. -/
def input_prompt (current_date message : String) : String :=
  system_prompt current_date ++ "\nMessage: " ++ message

/-- What process_transaction_message returns: the raw output string of the
service, or a Python dict with a single error field. -/
inductive ProcResult where
  | output (text : String)
  | errorDict (msg : String)
deriving DecidableEq

/-- The function process_transaction_message of src/app.py lines 44-79,
instrumented: the second component records the prompts submitted to the
completion service (line 74), so that call counts can be stated.  A missing
client yields an error dict and no outbound call; an exception from invoke is
caught and turned into an error dict carrying its message; otherwise the reply
content is returned as the raw output. -/
def process_transaction_message (current_date : String) (message : String)
    (llm : Option LLM) : ProcResult × List String :=
  match llm with
  | none => (.errorDict "LLM system is not initialized.", [])
  | some l =>
    match l.invoke (input_prompt current_date message) with
    | .error e => (.errorDict e, [input_prompt current_date message])
    | .ok r => (.output r.contentOrSelf, [input_prompt current_date message])

/-- A response body as produced by jsonify at the endpoint: a JSON object with
a single error field, or the JSON encoding of a raw result string. -/
inductive ResponseBody where
  | errorField (msg : String)
  | text (s : String)
deriving DecidableEq

/-- An HTTP response: status code and body.  Flask defaults the status of a
bare jsonify return to 200. -/
structure HttpResponse where
  status : Nat
  body : ResponseBody
deriving DecidableEq

/-- The Authorization check of src/app.py line 88: the request is rejected
when the header is missing or falsy, or differs from the f-string
interpolation of Bearer followed by API_SECRET_KEY. -/
def authFails (secret : Option String) (h : Option String) : Bool :=
  match h with
  | none => true
  | some s => s == "" || s != ("Bearer " ++ pyStrOpt secret)

/-- What jsonify does to the value returned by process_transaction_message at
src/app.py line 105: a string becomes a JSON string body, an error dict
becomes a JSON object with an error field. -/
def jsonifyResult : ProcResult → ResponseBody
  | .output s => .text s
  | .errorDict m => .errorField m

/-- The endpoint process_text of src/app.py lines 83-109, instrumented with
the list of prompts submitted to the completion service.  Order of checks is
that of the source: Authorization header first (line 88, before the body is
ever parsed), then JSON parsing (line 93, whose exception is caught by the
catch-all at lines 107-109 and surfaced as a 500 with the exception message),
then the falsy-body or missing-text check (line 94), then client
initialization (lines 100-102), then the message processing whose result is
passed to jsonify with the default 200 status (lines 104-105). -/
def process_text (w : World) (req : RequestCtx) : HttpResponse × List String :=
  match authFails w.API_SECRET_KEY req.authHeader with
  | true => (⟨401, .errorField "Unauthorized"⟩, [])
  | false =>
    match req.body with
    | .error e => (⟨500, .errorField e⟩, [])
    | .ok data =>
      match data.isEmpty || (data.lookup "text").isNone with
      | true => (⟨400, .errorField "Missing \x27text\x27 parameter"⟩, [])
      | false =>
        match initialize_llm w with
        | none => (⟨500, .errorField "LLM initialization failed"⟩, [])
        | some llm =>
          let r := process_transaction_message w.current_date
            ((data.lookup "text").getD "") (some llm)
          (⟨200, jsonifyResult r.1⟩, r.2)

/-- Substring containment: the pattern occurs contiguously inside the string.
Stated on the underlying character lists, hence decidable. -/
def containsStr (s pat : String) : Prop := pat.data <:+: s.data

instance (s pat : String) : Decidable (containsStr s pat) :=
  inferInstanceAs (Decidable (pat.data <:+: s.data))

/-- A client handed out by initialize_llm carries exactly the invoke behaviour
of the world. -/
theorem initialize_llm_invoke (w : World) (llm : LLM)
    (h : initialize_llm w = some llm) : llm.invoke = w.invoke := by
  unfold initialize_llm at h
  split at h
  · exact absurd h (by simp)
  · split at h
    · cases h; rfl
    · exact absurd h (by simp)

/-- Reduction of the endpoint on the authorized, well-formed, initialized
path: the response is determined by the single outbound call on the prompt
built from the process-start date and the text field, and that call is the
only one recorded. -/
theorem process_text_happy (w : World) (req : RequestCtx)
    (data : List (String × String)) (txt : String) (llm : LLM)
    (hauth : authFails w.API_SECRET_KEY req.authHeader = false)
    (hbody : req.body = Except.ok data)
    (htxt : data.lookup "text" = some txt)
    (hllm : initialize_llm w = some llm) :
    process_text w req =
      (match w.invoke (input_prompt w.current_date txt) with
       | Except.error e => (⟨200, ResponseBody.errorField e⟩, [input_prompt w.current_date txt])
       | Except.ok r => (⟨200, ResponseBody.text r.contentOrSelf⟩, [input_prompt w.current_date txt])) := by
  have hne : data.isEmpty = false := by
    cases data with
    | nil => simp [List.lookup] at htxt
    | cons a l => rfl
  have hguard : (data.isEmpty || (data.lookup "text").isNone) = false := by
    rw [hne, htxt]; rfl
  have hget : (data.lookup "text").getD "" = txt := by rw [htxt]; rfl
  have hinv := initialize_llm_invoke w llm hllm
  simp only [process_text, hauth, hbody, hguard, hllm, hget,
    process_transaction_message, hinv]
  cases w.invoke (input_prompt w.current_date txt) <;> rfl

/-- On the authorized, well-formed, initialized path exactly one prompt is
submitted, built from the process-start date and the text field, whatever the
outbound call returns. -/
theorem process_text_trace (w : World) (req : RequestCtx)
    (data : List (String × String)) (txt : String) (llm : LLM)
    (hauth : authFails w.API_SECRET_KEY req.authHeader = false)
    (hbody : req.body = Except.ok data)
    (htxt : data.lookup "text" = some txt)
    (hllm : initialize_llm w = some llm) :
    (process_text w req).2 = [input_prompt w.current_date txt] := by
  rw [process_text_happy w req data txt llm hauth hbody htxt hllm]
  cases w.invoke (input_prompt w.current_date txt) <;> rfl

/-- C1: the claim asserts status 500 when the outbound call raises.  At a
concrete authorized, well-formed request whose outbound call raises an
exception, the endpoint does not return 500: the caught exception becomes an
error payload under the default 200 status. -/
theorem c1_counterexample :
    (process_text
      ⟨some "shh", some "gk", "2025-01-01", true, fun _ => Except.error "connection refused"⟩
      ⟨some "Bearer shh", Except.ok [("text", "spent 500 at dominos")], "2025-01-01"⟩).1.status
      ≠ 500 := by
  decide

/-- C1 (amended): for every authorized request whose outbound
completion-service call raises an exception, the endpoint returns HTTP status
200 with a payload whose error field carries the underlying exception message,
and the outbound call is attempted exactly once, never retried. -/
theorem c1_service_error_200_once (w : World) (req : RequestCtx)
    (data : List (String × String)) (txt e : String) (llm : LLM)
    (hauth : authFails w.API_SECRET_KEY req.authHeader = false)
    (hbody : req.body = Except.ok data)
    (htxt : data.lookup "text" = some txt)
    (hllm : initialize_llm w = some llm)
    (herr : w.invoke (input_prompt w.current_date txt) = Except.error e) :
    process_text w req =
      (⟨200, ResponseBody.errorField e⟩, [input_prompt w.current_date txt]) := by
  rw [process_text_happy w req data txt llm hauth hbody htxt hllm, herr]

/-- Witness for c1_service_error_200_once at a concrete request. -/
theorem c1_service_error_200_once_witness :
    process_text
      ⟨some "shh", some "gk", "2025-01-01", true, fun _ => Except.error "rate limited"⟩
      ⟨some "Bearer shh", Except.ok [("text", "lunch 300")], "2025-01-01"⟩
      = (⟨200, ResponseBody.errorField "rate limited"⟩, [input_prompt "2025-01-01" "lunch 300"]) :=
  c1_service_error_200_once _ _ [("text", "lunch 300")] "lunch 300" "rate limited"
    ⟨DEFAULT_MODEL, DEFAULT_MAX_TOKENS, fun _ => Except.error "rate limited"⟩
    (by decide) rfl rfl rfl rfl

/-- C2: the claim asserts status 400 when the text field equals the empty
string.  At a concrete authorized request whose body carries an empty text
value, the endpoint does not return 400: the presence check accepts the empty
string and the request is forwarded. -/
theorem c2_counterexample :
    (process_text
      ⟨some "shh", some "gk", "2025-01-01", true, fun _ => Except.ok (LLMReply.withContent "null")⟩
      ⟨some "Bearer shh", Except.ok [("text", "")], "2025-01-01"⟩).1.status
      ≠ 400 := by
  decide

/-- C2 (amended): for every authorized request whose parsed JSON body lacks a
text field (in particular an empty body), the endpoint returns HTTP status 400
with the missing-parameter error payload; a present-but-empty text value is
not rejected. -/
theorem c2_missing_text_400 (w : World) (req : RequestCtx)
    (data : List (String × String))
    (hauth : authFails w.API_SECRET_KEY req.authHeader = false)
    (hbody : req.body = Except.ok data)
    (hmiss : data.lookup "text" = none) :
    process_text w req =
      (⟨400, ResponseBody.errorField "Missing \x27text\x27 parameter"⟩, []) := by
  have hguard : (data.isEmpty || (data.lookup "text").isNone) = true := by
    rw [hmiss]; simp
  simp only [process_text, hauth, hbody, hguard]

/-- Witness for c2_missing_text_400 at a concrete request. -/
theorem c2_missing_text_400_witness :
    process_text
      ⟨some "shh", some "gk", "2025-01-01", true, fun _ => Except.ok (LLMReply.withContent "null")⟩
      ⟨some "Bearer shh", Except.ok [("note", "hi")], "2025-01-01"⟩
      = (⟨400, ResponseBody.errorField "Missing \x27text\x27 parameter"⟩, []) :=
  c2_missing_text_400 _ _ [("note", "hi")] (by decide) rfl rfl

/-- C3: for every request whose Authorization header is missing or differs
from Bearer followed by the configured secret, the endpoint returns HTTP
status 401 with the Unauthorized error payload, whatever the body holds: the
result does not depend on the body and no outbound call is made. -/
theorem c3_unauthorized_401 (w : World) (req : RequestCtx)
    (h : req.authHeader = none
      ∨ req.authHeader ≠ some ("Bearer " ++ pyStrOpt w.API_SECRET_KEY)) :
    process_text w req = (⟨401, ResponseBody.errorField "Unauthorized"⟩, []) := by
  have hb : authFails w.API_SECRET_KEY req.authHeader = true := by
    cases hh : req.authHeader with
    | none => rfl
    | some s =>
      have hs : s ≠ "Bearer " ++ pyStrOpt w.API_SECRET_KEY := by
        rcases h with h | h
        · rw [hh] at h; exact absurd h (by simp)
        · intro he; exact h (by rw [hh, he])
      simp [authFails, hs]
  simp only [process_text, hb]

/-- Witness for c3_unauthorized_401 at a concrete request with a mismatched
token and a well-formed body. -/
theorem c3_unauthorized_401_witness :
    process_text
      ⟨some "shh", some "gk", "2025-01-01", true, fun _ => Except.ok (LLMReply.withContent "null")⟩
      ⟨some "Bearer wrong", Except.ok [("text", "hi")], "2025-01-01"⟩
      = (⟨401, ResponseBody.errorField "Unauthorized"⟩, []) :=
  c3_unauthorized_401 _ _ (Or.inr (by decide))

/-- C4: for every well-formed authorized request, exactly one instruction
string is submitted to the completion service, and it contains the literal
user text as a substring and the fixed schema-description instruction text
verbatim as a substring. -/
theorem c4_prompt_contains_text_and_schema (w : World) (req : RequestCtx)
    (data : List (String × String)) (txt : String) (llm : LLM)
    (hauth : authFails w.API_SECRET_KEY req.authHeader = false)
    (hbody : req.body = Except.ok data)
    (htxt : data.lookup "text" = some txt)
    (hllm : initialize_llm w = some llm) :
    (process_text w req).2 = [input_prompt w.current_date txt]
      ∧ containsStr (input_prompt w.current_date txt) txt
      ∧ containsStr (input_prompt w.current_date txt) schema_instruction := by
  refine ⟨process_text_trace w req data txt llm hauth hbody htxt hllm, ?_, ?_⟩
  · show txt.data <:+: (input_prompt w.current_date txt).data
    have h : (input_prompt w.current_date txt).data
        = (system_prompt w.current_date ++ "\nMessage: ").data ++ txt.data ++ [] := by
      simp [input_prompt, String.data_append]
    rw [h]
    exact List.infix_append _ _ _
  · show schema_instruction.data <:+: (input_prompt w.current_date txt).data
    have h : (input_prompt w.current_date txt).data
        = [] ++ schema_instruction.data
          ++ ((date_section w.current_date).data ++ "\nMessage: ".data ++ txt.data) := by
      simp [input_prompt, system_prompt, String.data_append]
    rw [h]
    exact List.infix_append _ _ _

/-- Witness for c4_prompt_contains_text_and_schema at a concrete request. -/
theorem c4_prompt_contains_text_and_schema_witness :
    (process_text
      ⟨some "shh", some "gk", "2025-01-01", true, fun _ => Except.ok (LLMReply.withContent "null")⟩
      ⟨some "Bearer shh", Except.ok [("text", "paid 250 to zomato")], "2025-01-01"⟩).2
      = [input_prompt "2025-01-01" "paid 250 to zomato"]
      ∧ containsStr (input_prompt "2025-01-01" "paid 250 to zomato") "paid 250 to zomato"
      ∧ containsStr (input_prompt "2025-01-01" "paid 250 to zomato") schema_instruction :=
  c4_prompt_contains_text_and_schema _ _ [("text", "paid 250 to zomato")]
    "paid 250 to zomato"
    ⟨DEFAULT_MODEL, DEFAULT_MAX_TOKENS, fun _ => Except.ok (LLMReply.withContent "null")⟩
    (by decide) rfl rfl rfl

set_option maxRecDepth 20000 in
/-- C5: the claim asserts that the date interpolated into the prompt is the
calendar date at the time the request is handled.  At a concrete request
handled on a later calendar date than process start, the submitted prompt is
not the prompt built from the request-time date: the source interpolates the
module-level date computed once at import. -/
theorem c5_counterexample :
    (process_text
      ⟨some "shh", some "gk", "2025-01-01", true, fun _ => Except.ok (LLMReply.withContent "null")⟩
      ⟨some "Bearer shh", Except.ok [("text", "hi")], "2025-06-01"⟩).2
      ≠ [input_prompt "2025-06-01" "hi"] := by
  decide

/-- C5 (amended): for every authorized well-formed request, the date
interpolated into the submitted prompt is the process-start module-level date,
whatever calendar date the request is handled on. -/
theorem c5_prompt_date_is_start_date (w : World) (req : RequestCtx)
    (data : List (String × String)) (txt : String) (llm : LLM)
    (hauth : authFails w.API_SECRET_KEY req.authHeader = false)
    (hbody : req.body = Except.ok data)
    (htxt : data.lookup "text" = some txt)
    (hllm : initialize_llm w = some llm) :
    (process_text w req).2 = [input_prompt w.current_date txt] :=
  process_text_trace w req data txt llm hauth hbody htxt hllm

/-- Witness for c5_prompt_date_is_start_date at a concrete request handled on
a date different from process start. -/
theorem c5_prompt_date_is_start_date_witness :
    (process_text
      ⟨some "shh", some "gk", "2025-01-01", true, fun _ => Except.ok (LLMReply.withContent "null")⟩
      ⟨some "Bearer shh", Except.ok [("text", "hi")], "2025-06-01"⟩).2
      = [input_prompt "2025-01-01" "hi"] :=
  c5_prompt_date_is_start_date _ _ [("text", "hi")] "hi"
    ⟨DEFAULT_MODEL, DEFAULT_MAX_TOKENS, fun _ => Except.ok (LLMReply.withContent "null")⟩
    (by decide) rfl rfl rfl

/-- C6: for every authorized well-formed request on which the
completion-service client cannot be constructed (in particular when the
provider API key is absent), the endpoint returns HTTP status 500 with an
error payload describing the initialization failure, and no outbound call is
made. -/
theorem c6_init_failure_500 (w : World) (req : RequestCtx)
    (data : List (String × String)) (txt : String)
    (hauth : authFails w.API_SECRET_KEY req.authHeader = false)
    (hbody : req.body = Except.ok data)
    (htxt : data.lookup "text" = some txt)
    (hinit : initialize_llm w = none) :
    process_text w req =
      (⟨500, ResponseBody.errorField "LLM initialization failed"⟩, []) := by
  have hne : data.isEmpty = false := by
    cases data with
    | nil => simp [List.lookup] at htxt
    | cons a l => rfl
  have hguard : (data.isEmpty || (data.lookup "text").isNone) = false := by
    rw [hne, htxt]; rfl
  simp only [process_text, hauth, hbody, hguard, hinit]

/-- Witness for c6_init_failure_500 at a concrete request with the provider
API key absent from the environment. -/
theorem c6_init_failure_500_witness :
    process_text
      ⟨some "shh", none, "2025-01-01", true, fun _ => Except.ok (LLMReply.withContent "null")⟩
      ⟨some "Bearer shh", Except.ok [("text", "hi")], "2025-01-01"⟩
      = (⟨500, ResponseBody.errorField "LLM initialization failed"⟩, []) :=
  c6_init_failure_500 _ _ [("text", "hi")] "hi" (by decide) rfl rfl rfl

/-- C7: for every successful authorized request, the response carries status
200 and its body is the JSON encoding of exactly the reply content returned by
the completion service, unparsed and unmodified. -/
theorem c7_raw_output_verbatim (w : World) (req : RequestCtx)
    (data : List (String × String)) (txt : String) (llm : LLM) (r : LLMReply)
    (hauth : authFails w.API_SECRET_KEY req.authHeader = false)
    (hbody : req.body = Except.ok data)
    (htxt : data.lookup "text" = some txt)
    (hllm : initialize_llm w = some llm)
    (hok : w.invoke (input_prompt w.current_date txt) = Except.ok r) :
    process_text w req =
      (⟨200, ResponseBody.text r.contentOrSelf⟩, [input_prompt w.current_date txt]) := by
  rw [process_text_happy w req data txt llm hauth hbody htxt hllm, hok]

/-- Witness for c7_raw_output_verbatim: a reply that is not even well-formed
JSON is passed back to the caller untouched. -/
theorem c7_raw_output_verbatim_witness :
    process_text
      ⟨some "shh", some "gk", "2025-01-01", true,
        fun _ => Except.ok (LLMReply.withContent "not json at all")⟩
      ⟨some "Bearer shh", Except.ok [("text", "hi")], "2025-01-01"⟩
      = (⟨200, ResponseBody.text "not json at all"⟩, [input_prompt "2025-01-01" "hi"]) :=
  c7_raw_output_verbatim _ _ [("text", "hi")] "hi"
    ⟨DEFAULT_MODEL, DEFAULT_MAX_TOKENS, fun _ => Except.ok (LLMReply.withContent "not json at all")⟩
    (LLMReply.withContent "not json at all")
    (by decide) rfl rfl rfl rfl

/-- C8: when the shared-secret environment variable is unset, the expected
header is built by f-string interpolation of None, so a request whose
Authorization header is the literal string Bearer None passes the check and is
never answered with 401. -/
theorem c8_none_secret_bearer_none_accepted (w : World) (req : RequestCtx)
    (hsec : w.API_SECRET_KEY = none)
    (hhdr : req.authHeader = some "Bearer None") :
    authFails w.API_SECRET_KEY req.authHeader = false
      ∧ (process_text w req).1.status ≠ 401 := by
  have hf : authFails w.API_SECRET_KEY req.authHeader = false := by
    rw [hsec, hhdr]; rfl
  refine ⟨hf, ?_⟩
  simp only [process_text, hf]
  cases req.body with
  | error e => simp
  | ok data =>
    cases hg : (data.isEmpty || (data.lookup "text").isNone) with
    | true => simp [hg]
    | false =>
      simp only [hg]
      cases initialize_llm w with
      | none => simp
      | some llm => simp

/-- Witness for c8_none_secret_bearer_none_accepted at a concrete request. -/
theorem c8_none_secret_bearer_none_accepted_witness :
    authFails
      (World.mk none (some "gk") "2025-01-01" true
        (fun _ => Except.ok (LLMReply.withContent "null"))).API_SECRET_KEY
      (RequestCtx.mk (some "Bearer None") (Except.ok [("text", "hi")]) "2025-01-01").authHeader
      = false
    ∧ (process_text
        (World.mk none (some "gk") "2025-01-01" true
          (fun _ => Except.ok (LLMReply.withContent "null")))
        (RequestCtx.mk (some "Bearer None") (Except.ok [("text", "hi")]) "2025-01-01")).1.status
      ≠ 401 :=
  c8_none_secret_bearer_none_accepted _ _ rfl rfl

/-- C9: for every authorized request whose body cannot be parsed as JSON, the
parsing exception reaches the catch-all handler: the endpoint returns HTTP
status 500 with the exception message in the error field, not 400, and no
outbound call is made. -/
theorem c9_unparseable_body_500 (w : World) (req : RequestCtx) (e : String)
    (hauth : authFails w.API_SECRET_KEY req.authHeader = false)
    (hbody : req.body = Except.error e) :
    process_text w req = (⟨500, ResponseBody.errorField e⟩, [])
      ∧ (process_text w req).1.status ≠ 400 := by
  have h : process_text w req = (⟨500, ResponseBody.errorField e⟩, []) := by
    simp only [process_text, hauth, hbody]
  exact ⟨h, by rw [h]; simp⟩

/-- Witness for c9_unparseable_body_500 at a concrete request whose body
parsing raised the Flask BadRequest exception. -/
theorem c9_unparseable_body_500_witness :
    process_text
      ⟨some "shh", some "gk", "2025-01-01", true, fun _ => Except.ok (LLMReply.withContent "null")⟩
      ⟨some "Bearer shh", Except.error "400 Bad Request: malformed body", "2025-01-01"⟩
      = (⟨500, ResponseBody.errorField "400 Bad Request: malformed body"⟩, [])
    ∧ (process_text
        ⟨some "shh", some "gk", "2025-01-01", true, fun _ => Except.ok (LLMReply.withContent "null")⟩
        ⟨some "Bearer shh", Except.error "400 Bad Request: malformed body", "2025-01-01"⟩).1.status
      ≠ 400 :=
  c9_unparseable_body_500 _ _ "400 Bad Request: malformed body" (by decide) rfl

/-- C10: prompt construction is deterministic: in one process (one world,
hence one process-start date), two authorized requests carrying the same text
value submit byte-identical prompts, whatever their other fields hold. -/
theorem c10_prompt_deterministic (w : World) (req₁ req₂ : RequestCtx)
    (data₁ data₂ : List (String × String)) (txt : String) (llm : LLM)
    (hauth₁ : authFails w.API_SECRET_KEY req₁.authHeader = false)
    (hbody₁ : req₁.body = Except.ok data₁)
    (htxt₁ : data₁.lookup "text" = some txt)
    (hauth₂ : authFails w.API_SECRET_KEY req₂.authHeader = false)
    (hbody₂ : req₂.body = Except.ok data₂)
    (htxt₂ : data₂.lookup "text" = some txt)
    (hllm : initialize_llm w = some llm) :
    (process_text w req₁).2 = (process_text w req₂).2 := by
  rw [process_text_trace w req₁ data₁ txt llm hauth₁ hbody₁ htxt₁ hllm,
    process_text_trace w req₂ data₂ txt llm hauth₂ hbody₂ htxt₂ hllm]

/-- Witness for c10_prompt_deterministic: two requests with the same text but
different extra body fields and different handling dates submit the same
prompt. -/
theorem c10_prompt_deterministic_witness :
    (process_text
      ⟨some "shh", some "gk", "2025-01-01", true, fun _ => Except.ok (LLMReply.withContent "null")⟩
      ⟨some "Bearer shh", Except.ok [("text", "coffee 80"), ("extra", "a")], "2025-02-02"⟩).2
    = (process_text
      ⟨some "shh", some "gk", "2025-01-01", true, fun _ => Except.ok (LLMReply.withContent "null")⟩
      ⟨some "Bearer shh", Except.ok [("other", "b"), ("text", "coffee 80")], "2025-03-03"⟩).2 :=
  c10_prompt_deterministic _ _ _
    [("text", "coffee 80"), ("extra", "a")] [("other", "b"), ("text", "coffee 80")]
    "coffee 80"
    ⟨DEFAULT_MODEL, DEFAULT_MAX_TOKENS, fun _ => Except.ok (LLMReply.withContent "null")⟩
    (by decide) rfl rfl (by decide) rfl rfl rfl
